import Mathlib

/-
Verification of the soft-delete / ownership / nested-serializer layer of the
django-smart-models repository, as a shallow embedding in Lean 4.

The embedding mirrors, definition by definition:
  * smartmodels/settings.py       (builtin defaults, get_setting)
  * smartmodels/helpers.py        (_are_services, is_sentinel, is_service, is_superuser)
  * smartmodels/models/utils.py   (get_sentinel_user)
  * smartmodels/models/smart.py   (SmartModel.delete, prepare_smart_fields)
  * smartmodels/models/managers.py (SmartQuerySet.active/delete, SmartManager.get_queryset)
  * smartmodels/models/resource.py (get_default_namespaces, prepare_shared_smart_m2m_fields)
  * smartmodels/drf/serializers/mixins.py (nested_custom, is_valid, get_nested,
    disable_validators, filter_nested_validators)
  * smart_models/models/smart.py  (the legacy prepare_smart_fields handler)

Machine-level conventions: timestamps are natural numbers (timezone.now() is an
explicit parameter, one per call site); Django model instances are records whose
nullable columns are Option-valued; a Python assert that fails is Except.error;
a queryset is the list of matched rows; the single stored row of an instance is
an Option-valued database cell threaded explicitly.
-/

/-- Whether an Except value is a success (the Python call returned instead of
raising AssertionError). -/
def exceptOk {ε α : Type} : Except ε α → Bool
  | Except.ok _ => true
  | Except.error _ => false

namespace smartmodels

/-- An AUTH_USER_MODEL instance, restricted to the attributes the smartmodels
code reads: USERNAME_FIELD (`username`), `is_active`, `is_superuser`. -/
structure User where
  username : String
  is_active : Bool
  is_superuser : Bool
deriving DecidableEq

/-- The smartmodels settings read through `get_setting` in
smartmodels/settings.py, one field per key the model layer consults. -/
structure Settings where
  sentinel_uid : String
  service_uids : List String
  default_required : Bool
  hide_deleted : Bool
  hide_service_owners : Bool
deriving DecidableEq

/-- The builtin defaults of smartmodels/settings.py: SENTINEL_UID = 'sentinel'
(DEFAULT_MODELS_OWNER_UID), SERVICE_UIDS = [], DEFAULT_REQUIRED = True,
HIDE_DELETED = True, HIDE_SERVICE_OWNERS = False. -/
def defaultSettings : Settings :=
  { sentinel_uid := "sentinel", service_uids := [], default_required := true,
    hide_deleted := true, hide_service_owners := false }

/-- smartmodels/models/utils.py get_sentinel_user: the user whose
USERNAME_FIELD equals the SENTINEL_UID setting (get_or_create with Django's
defaults: active, not a superuser). -/
def get_sentinel_user (s : Settings) : User :=
  { username := s.sentinel_uid, is_active := true, is_superuser := false }

/-- A SmartModel instance: the smart columns of smartmodels/models/smart.py.
`pk` is the primary key (none while unsaved). `as_user` is the instance viewed
as an AUTH_USER_MODEL instance when the concrete SmartModel subclass happens to
be the user model (the `isinstance(instance, get_user_model())` test of
smartmodels/helpers.py), and none otherwise. -/
structure SmartInstance where
  pk : Option Nat
  deleted_at : Option Nat
  created_at : Option Nat
  updated_at : Option Nat
  owner : Option User
  created_by : Option User
  updated_by : Option User
  deleted_by : Option User
  as_user : Option User
deriving DecidableEq

/-- Python truthiness of an int-or-None primary key: `if instance.pk` is true
iff the pk is present and nonzero. -/
def pkSet : Option Nat → Bool
  | some n => n != 0
  | none => false

/-- smartmodels/helpers.py _are_services: the instance is a user-model instance
whose USERNAME_FIELD is among the given uids; False for non-user instances. -/
def _are_services (inst : SmartInstance) (uids : List String) : Bool :=
  match inst.as_user with
  | some u => uids.contains u.username
  | none => false

/-- smartmodels/helpers.py is_sentinel: _are_services with the SENTINEL_UID. -/
def is_sentinel (s : Settings) (inst : SmartInstance) : Bool :=
  _are_services inst [s.sentinel_uid]

/-- smartmodels/helpers.py is_service: _are_services with the SERVICE_UIDS. -/
def is_service (s : Settings) (inst : SmartInstance) : Bool :=
  _are_services inst s.service_uids

/-- smartmodels/helpers.py is_superuser: the instance is a user-model instance
with is_superuser set; False for non-user instances. -/
def is_superuser (inst : SmartInstance) : Bool :=
  match inst.as_user with
  | some u => u.is_superuser
  | none => false

/-- The `excluded` test of prepare_smart_fields in smartmodels/models/smart.py:
`is_sentinel(instance) or is_superuser(instance) or is_service(instance)`
(applied to the instance being saved, not to its owner). -/
def smart_excluded (s : Settings) (inst : SmartInstance) : Bool :=
  is_sentinel s inst || is_superuser inst || is_service s inst

/-- smartmodels/models/smart.py prepare_smart_fields, the pre_save receiver,
for a SmartModel sender. `now` is the timezone.now() of this call. Asserts are
Except.error; the returned instance is the in-memory instance the ORM then
writes. -/
def prepare_smart_fields (s : Settings) (now : Nat) (inst : SmartInstance) :
    Except String SmartInstance :=
  if s.default_required && !smart_excluded s inst then
    if inst.owner.isNone then
      Except.error "SmartModel instance missing owner attribute"
    else if !pkSet inst.pk then
      if inst.created_by.isNone || inst.updated_by.isNone then
        Except.error "SmartModel instance missing created_by or updated_by attribute"
      else
        Except.ok inst
    else if inst.updated_by.isNone && inst.deleted_by.isNone then
      Except.error "SmartModel instance missing updated_by or deleted_by attribute"
    else
      Except.ok inst
  else
    let i1 := { inst with updated_at := some now }
    let i2 := if !pkSet inst.pk then { i1 with created_at := some now } else i1
    Except.ok i2

/-- The observable events of SmartModel.delete: the manual post_delete signal
(carrying the in-memory instance the listeners observe and the deleted_by
keyword), and the row write performed by self.save(). -/
inductive DeleteEvent where
  | post_delete_signal (observed : SmartInstance) (deleted_by : Option User)
  | save_row (written : SmartInstance)
deriving DecidableEq

/-- The in-memory mutation performed by SmartModel.delete before firing the
signal: deleted_at is set to timezone.now() of the delete call and owner is
reassigned to the sentinel user; every other field keeps its pre-delete
value. -/
def mark_deleted (s : Settings) (tdel : Nat) (inst : SmartInstance) : SmartInstance :=
  { inst with deleted_at := some tdel, owner := some (get_sentinel_user s) }

/-- smartmodels/models/smart.py SmartModel.delete. `tdel` is the
timezone.now() of the delete call, `tsave` that of the pre_save handler run by
self.save(). `db` is the stored row before the call. Returns the event trace,
each event paired with the stored row as of that event, and the final stored
row (or the assertion error). The guard asserts deleted_by when
DEFAULT_REQUIRED; then deleted_at and owner are mutated in memory, post_delete
is sent manually (with the deleted_by keyword), and save() routes through
prepare_smart_fields before writing the row. -/
def SmartModel.delete (s : Settings) (tdel tsave : Nat) (inst : SmartInstance)
    (db : Option SmartInstance) :
    List (DeleteEvent × Option SmartInstance) × Except String (Option SmartInstance) :=
  if s.default_required && inst.deleted_by.isNone then
    ([], Except.error "SmartModel instance missing deleted_by attribute")
  else
    match prepare_smart_fields s tsave (mark_deleted s tdel inst) with
    | Except.error e =>
        ([(DeleteEvent.post_delete_signal (mark_deleted s tdel inst) inst.deleted_by, db)],
         Except.error e)
    | Except.ok written =>
        ([(DeleteEvent.post_delete_signal (mark_deleted s tdel inst) inst.deleted_by, db),
          (DeleteEvent.save_row written, some written)],
         Except.ok (some written))

/-- The per-row effect of the bulk update in SmartQuerySet.delete
(smartmodels/models/managers.py): deleted_at=now, deleted_by as given, owner
reassigned to the sentinel user. -/
def qs_mark_deleted (s : Settings) (now : Nat) (dby : Option User)
    (r : SmartInstance) : SmartInstance :=
  { r with deleted_at := some now, deleted_by := dby, owner := some (get_sentinel_user s) }

/-- smartmodels/models/managers.py SmartQuerySet.delete: assert deleted_by when
DEFAULT_REQUIRED, then a bulk `update` of every matched row (no row removal,
and no pre_save signal since QuerySet.update bypasses signals). -/
def SmartQuerySet.delete (s : Settings) (now : Nat) (dby : Option User)
    (rows : List SmartInstance) : Except String (List SmartInstance) :=
  if s.default_required && dby.isNone then
    Except.error "SmartModel manager delete missing deleted_by attribute"
  else
    Except.ok (rows.map (qs_mark_deleted s now dby))

/-- The `owner__USERNAME_FIELD = SENTINEL_UID` filter of SmartQuerySet.active;
a null owner matches no join condition. -/
def owner_is_sentinel (s : Settings) (r : SmartInstance) : Bool :=
  match r.owner with
  | some u => u.username == s.sentinel_uid
  | none => false

/-- The `owner__is_active=False` filter of SmartQuerySet.active. -/
def owner_is_inactive (r : SmartInstance) : Bool :=
  match r.owner with
  | some u => !u.is_active
  | none => false

/-- The `owner__USERNAME_FIELD__in = SERVICE_UIDS` filter of
SmartQuerySet.active. -/
def owner_is_service (s : Settings) (r : SmartInstance) : Bool :=
  match r.owner with
  | some u => s.service_uids.contains u.username
  | none => false

/-- smartmodels/models/managers.py SmartQuerySet.active: unconditionally
exclude sentinel-owned and inactive-owned rows; then, under HIDE_DELETED,
exclude rows with deleted_at non-null; then, under HIDE_SERVICE_OWNERS,
exclude service-owned rows and rows with deleted_at non-null. -/
def SmartQuerySet.active (s : Settings) (rows : List SmartInstance) :
    List SmartInstance :=
  let qs1 := rows.filter (fun r => !(owner_is_sentinel s r || owner_is_inactive r))
  let qs2 := if s.hide_deleted then qs1.filter (fun r => !r.deleted_at.isSome) else qs1
  let qs3 :=
    if s.hide_service_owners then
      qs2.filter (fun r => !(owner_is_service s r || r.deleted_at.isSome))
    else qs2
  qs3

/-- smartmodels/models/managers.py SmartManagerMixin.get_queryset (with
SmartManager.queryset_cls = SmartQuerySet): the active() queryset over all
rows of the model. -/
def SmartManager.get_queryset (s : Settings) (rows : List SmartInstance) :
    List SmartInstance :=
  SmartQuerySet.active s rows

/-- The deleted state of the two-state soft-delete machine: deleted_at
non-null. -/
def is_deleted (r : SmartInstance) : Bool :=
  r.deleted_at.isSome

/-- A Namespace instance, restricted to the single attribute the model layer
reads: the NAMESPACE_PK_FIELD column (default 'slug'). -/
structure Nspace where
  slug : String
deriving DecidableEq

/-- smartmodels/models/resource.py get_default_namespaces: the singleton list
holding the namespace whose NAMESPACE_PK_FIELD equals the SENTINEL_UID setting
(get_or_create). -/
def get_default_namespaces (s : Settings) : List Nspace :=
  [{ slug := s.sentinel_uid }]

/-- The m2m_changed actions Django dispatches around an add/remove/clear on a
many-to-many relation. -/
inductive M2MAction where
  | pre_add
  | post_add
  | pre_remove
  | post_remove
  | pre_clear
  | post_clear
deriving DecidableEq

/-- The namespaces many-to-many set of a Resource instance
(instance.namespaces.all(), as a duplicate-free list). -/
structure ResourceState where
  namespaces : List Nspace
deriving DecidableEq

/-- The body of the `if space not in instance.namespaces.all()` loop of
prepare_shared_smart_m2m_fields: add the namespace through the reverse
relation when absent. -/
def add_if_absent (st : ResourceState) (sp : Nspace) : ResourceState :=
  if st.namespaces.contains sp then st
  else { st with namespaces := st.namespaces ++ [sp] }

/-- smartmodels/models/resource.py prepare_shared_smart_m2m_fields, the
m2m_changed receiver for a Resource instance: on post_add, post_remove or
post_clear, re-add every default namespace that is absent from the instance's
namespaces; on the other actions, do nothing. -/
def prepare_shared_smart_m2m_fields (s : Settings) (action : M2MAction)
    (st : ResourceState) : ResourceState :=
  if action == M2MAction.post_add || action == M2MAction.post_remove
      || action == M2MAction.post_clear then
    (get_default_namespaces s).foldl add_if_absent st
  else st

/-- The three mutating operations on a many-to-many relation that complete
with a post_ m2m_changed action. -/
inductive M2MOp where
  | add (ns : List Nspace)
  | remove (ns : List Nspace)
  | clear
deriving DecidableEq

/-- The ORM effect of the operation itself on the relation set. -/
def apply_m2m_op (op : M2MOp) (st : ResourceState) : ResourceState :=
  match op with
  | M2MOp.add ns =>
      { st with namespaces := st.namespaces ++ ns.filter (fun n => !st.namespaces.contains n) }
  | M2MOp.remove ns =>
      { st with namespaces := st.namespaces.filter (fun n => !ns.contains n) }
  | M2MOp.clear => { st with namespaces := [] }

/-- The post_ m2m_changed action fired when the operation completes. -/
def post_action : M2MOp → M2MAction
  | M2MOp.add _ => M2MAction.post_add
  | M2MOp.remove _ => M2MAction.post_remove
  | M2MOp.clear => M2MAction.post_clear

/-- A completed add/remove/clear on instance.namespaces: the ORM effect
followed by the m2m_changed dispatch of the corresponding post_ action to
prepare_shared_smart_m2m_fields. -/
def completed_m2m (s : Settings) (op : M2MOp) (st : ResourceState) : ResourceState :=
  prepare_shared_smart_m2m_fields s (post_action op) (apply_m2m_op op st)

end smartmodels

namespace smart_models

/-- An AbstractSmartModel instance of the legacy smart_models app
(smart_models/models/smart.py): same smart columns, with the owner field named
`user`. -/
structure SmInstance where
  pk : Option Nat
  deleted_at : Option Nat
  created_at : Option Nat
  updated_at : Option Nat
  user : Option smartmodels.User
  created_by : Option smartmodels.User
  updated_by : Option smartmodels.User
  deleted_by : Option smartmodels.User
deriving DecidableEq

/-- smart_models/models/smart.py prepare_smart_fields, the legacy pre_save
receiver for an AbstractSmartModel sender. `required` is the
SMART_MODELS_DEFAULT_REQUIRED setting. Under required, asserts created_by,
updated_by and user in that order; otherwise sets updated_at to now and, when
`instance.pk` is truthy, also created_at to now. -/
def prepare_smart_fields (required : Bool) (now : Nat) (inst : SmInstance) :
    Except String SmInstance :=
  if required then
    if inst.created_by.isNone then
      Except.error "AbstractSmartModel instance missing created_by attribute"
    else if inst.updated_by.isNone then
      Except.error "AbstractSmartModel instance missing updated_by attribute"
    else if inst.user.isNone then
      Except.error "AbstractSmartModel instance missing user attribute"
    else
      Except.ok inst
  else
    let i1 := { inst with updated_at := some now }
    let i2 := if smartmodels.pkSet inst.pk then { i1 with created_at := some now } else i1
    Except.ok i2

end smart_models

namespace drf

/-- A DRF validator attached to a serializer field, classified by whether it
is an instance of UniqueValidator, of UniqueTogetherValidator, or of any other
validator class; `id` distinguishes distinct validator objects. -/
inductive Validator where
  | uniqueV (id : Nat)
  | uniqueTogetherV (id : Nat)
  | otherV (id : Nat)
deriving DecidableEq

/-- The `for_disabling` test of filter_nested_validators
(smartmodels/drf/serializers/mixins.py): membership of the validator's class
in BLACKLISTED_VALIDATORS = [UniqueValidator, UniqueTogetherValidator]. -/
def for_disabling : Validator → Bool
  | Validator.uniqueV _ => true
  | Validator.uniqueTogetherV _ => true
  | Validator.otherV _ => false

/-- smartmodels/drf/serializers/mixins.py
WritableNestingModelSerializerMixin.filter_nested_validators: the field's
validator list with the blacklisted validators filtered out. -/
def filter_nested_validators (validators : List Validator) : List Validator :=
  validators.filter (fun v => !for_disabling v)

/-- One field of a child (nested) serializer, with its validator list. -/
structure SerializerField where
  name : String
  validators : List Validator
deriving DecidableEq

/-- A child serializer bound under a nested field of the nesting serializer:
its fields, and whether it is a ListSerializer (the serializer DRF substitutes
when many=True). -/
structure ChildSerializer where
  fields : List SerializerField
  isListSerializer : Bool
deriving DecidableEq

/-- The Meta.exclude_nested attribute: either the string `__all__` or a list
of nested field names. -/
inductive ExcludeNested where
  | all
  | names (l : List String)
deriving DecidableEq

/-- Membership of a nested field in self.nested_custom
(smartmodels/drf/serializers/mixins.py): every nested field name except those
of exclude_nested; none when exclude_nested is `__all__`. -/
def in_custom (excl : ExcludeNested) (name : String) : Bool :=
  match excl with
  | ExcludeNested.all => false
  | ExcludeNested.names l => !l.contains name

/-- smartmodels/drf/serializers/mixins.py nested_custom: the nested
serializers minus the excluded ones. -/
def nested_custom (excl : ExcludeNested) (nested : List (String × ChildSerializer)) :
    List (String × ChildSerializer) :=
  match excl with
  | ExcludeNested.all => []
  | ExcludeNested.names l => nested.filter (fun p => !l.contains p.1)

/-- smartmodels/drf/serializers/mixins.py disable_validators applied to one
child serializer: for every field of the child, replace its effective
validator list (via Meta.extra_kwargs) by filter_nested_validators of it. -/
def disable_validators (c : ChildSerializer) : ChildSerializer :=
  { c with fields := c.fields.map (fun f => { f with validators := filter_nested_validators f.validators }) }

/-- The effect on the nested serializers of
WritableNestingModelSerializerMixin.is_valid: every nested field that is in
nested_custom and is not a ListSerializer gets disable_validators applied;
every other nested field is left unchanged. -/
def is_valid_effect (excl : ExcludeNested) (nested : List (String × ChildSerializer)) :
    List (String × ChildSerializer) :=
  nested.map (fun p =>
    if in_custom excl p.1 && !p.2.isListSerializer then (p.1, disable_validators p.2)
    else p)

/-- A JSON-ish payload value, the `data=` argument of a serializer. -/
inductive JValue where
  | jnull
  | jbool (b : Bool)
  | jnum (n : Int)
  | jstr (s : String)
  | jarr (items : List JValue)
  | jobj (fields : List (String × JValue))

/-- Python truthiness of a payload value: None, False, 0, the empty string,
the empty list and the empty dict are falsy. -/
def truthy : JValue → Bool
  | JValue.jnull => false
  | JValue.jbool b => b
  | JValue.jnum n => n != 0
  | JValue.jstr s => !(s == "")
  | JValue.jarr items => !items.isEmpty
  | JValue.jobj fields => !fields.isEmpty

/-- `data.get(name, None)` on the payload dict (none when the payload is not a
dict or the key is absent). -/
def dataGet : JValue → String → Option JValue
  | JValue.jobj fields, name => (fields.find? (fun p => p.1 == name)).map (fun p => p.2)
  | _, _ => none

/-- The `data.get(name, None) or data` step of get_nested
(smartmodels/drf/serializers/mixins.py): the value under the field's name when
present and truthy, the entire payload otherwise. -/
def data_for_field (data : JValue) (name : String) : JValue :=
  match dataGet data name with
  | some v => if truthy v then v else data
  | none => data

/-- smartmodels/drf/serializers/mixins.py
WritableNestingModelSerializerMixin.get_nested: bind every declared
sub-serializer field (given by name) to a fresh serializer over
data_for_field. -/
def get_nested (subfields : List String) (data : JValue) : List (String × JValue) :=
  subfields.map (fun name => (name, data_for_field data name))

end drf

/-! Concrete instances used by counterexamples and witnesses. -/

/-- A regular active, non-super user. -/
def bob : smartmodels.User :=
  { username := "bob", is_active := true, is_superuser := false }

/-- The builtin defaults with SMARTMODELS_DEFAULT_REQUIRED overridden to
False. -/
def reqFalseSettings : smartmodels.Settings :=
  { smartmodels.defaultSettings with default_required := false }

/-- A live row owned by the sentinel user and not soft-deleted (e.g. created
with owner=sentinel, or whose owner row was hard-deleted, triggering
on_delete=SET(get_sentinel_user)). -/
def c2_row : smartmodels.SmartInstance :=
  { pk := some 1, deleted_at := none, created_at := some 0, updated_at := some 0,
    owner := some (smartmodels.get_sentinel_user smartmodels.defaultSettings),
    created_by := none, updated_by := none, deleted_by := none, as_user := none }

/-- An instance of a user-model SmartModel subclass that is itself a
superuser, with every smart field unset. -/
def c4_inst : smartmodels.SmartInstance :=
  { pk := none, deleted_at := none, created_at := none, updated_at := none,
    owner := none, created_by := none, updated_by := none, deleted_by := none,
    as_user := some { username := "alice", is_active := true, is_superuser := true } }

/-- A fully populated live instance owned by bob (with a primary key). -/
def good_row : smartmodels.SmartInstance :=
  { pk := some 1, deleted_at := none, created_at := some 100, updated_at := some 100,
    owner := some bob, created_by := some bob, updated_by := some bob,
    deleted_by := none, as_user := none }

/-- good_row with deleted_by set by the caller, as SmartModel.delete requires
under DEFAULT_REQUIRED. -/
def del_row : smartmodels.SmartInstance :=
  { good_row with deleted_by := some bob }

/-- The in-memory state of del_row right after SmartModel.delete marks it:
deleted_at set, owner reassigned to the sentinel. -/
def del_row_marked : smartmodels.SmartInstance :=
  { del_row with
    deleted_at := some 3,
    owner := some (smartmodels.get_sentinel_user smartmodels.defaultSettings) }

/-- The legacy-app twin of good_row. -/
def good_row_legacy : smart_models.SmInstance :=
  { pk := some 1, deleted_at := none, created_at := some 100, updated_at := some 100,
    user := some bob, created_by := some bob, updated_by := some bob,
    deleted_by := none }

/-- A child serializer bound with many=True (a ListSerializer) whose single
field carries a UniqueValidator. -/
def c5_list_child : drf.ChildSerializer :=
  { fields := [{ name := "slug",
                 validators := [drf.Validator.uniqueV 0, drf.Validator.otherV 1] }],
    isListSerializer := true }

/-- The same child serializer bound with many=False. -/
def c5_flat_child : drf.ChildSerializer :=
  { c5_list_child with isListSerializer := false }

/-- A nested payload: the sub-serializer field `owner` holds a non-empty
nested object. -/
def c6_owner_val : drf.JValue :=
  drf.JValue.jobj [("username", drf.JValue.jstr "bob")]

/-- The whole input payload for the C6 witness: a nested `owner` object plus a
flat field. -/
def c6_data : drf.JValue :=
  drf.JValue.jobj [("owner", c6_owner_val), ("quantity", drf.JValue.jnum 2)]

/-- A resource whose namespaces relation holds one non-default namespace. -/
def c7_state : smartmodels.ResourceState :=
  { namespaces := [{ slug := "research" }] }

/-! Helper lemmas shared by the claim theorems. -/

/-- Membership in SmartQuerySet.active, unfolded into its three exclusion
stages. -/
theorem mem_active_iff (s : smartmodels.Settings) (rows : List smartmodels.SmartInstance)
    (r : smartmodels.SmartInstance) :
    r ∈ smartmodels.SmartQuerySet.active s rows ↔
      r ∈ rows ∧ smartmodels.owner_is_sentinel s r = false ∧
      smartmodels.owner_is_inactive r = false ∧
      (s.hide_deleted = true → r.deleted_at.isSome = false) ∧
      (s.hide_service_owners = true →
        smartmodels.owner_is_service s r = false ∧ r.deleted_at.isSome = false) := by
  unfold smartmodels.SmartQuerySet.active
  cases hd : s.hide_deleted <;> cases hso : s.hide_service_owners <;>
    simp [List.mem_filter] <;> tauto

/-- Every row of the bulk update of SmartQuerySet.delete is owned by the
sentinel user, hence the active() queryset over them is empty. -/
theorem active_of_marked_eq_nil (s : smartmodels.Settings) (now : Nat)
    (dby : Option smartmodels.User) (rows : List smartmodels.SmartInstance) :
    smartmodels.SmartQuerySet.active s
      (rows.map (smartmodels.qs_mark_deleted s now dby)) = [] := by
  have hsent : ∀ a, smartmodels.owner_is_sentinel s (smartmodels.qs_mark_deleted s now dby a) = true := by
    intro a
    simp [smartmodels.qs_mark_deleted, smartmodels.owner_is_sentinel,
      smartmodels.get_sentinel_user]
  cases hd : s.hide_deleted <;> cases hso : s.hide_service_owners <;>
    simp [smartmodels.SmartQuerySet.active, hd, hso, hsent]

/-- prepare_smart_fields never changes the pk, the user audit fields, or
deleted_at: only the two timestamps updated_at/created_at can be assigned. -/
theorem prepare_smart_fields_preserves (s : smartmodels.Settings) (now : Nat)
    (i i2 : smartmodels.SmartInstance)
    (h : smartmodels.prepare_smart_fields s now i = Except.ok i2) :
    i2.pk = i.pk ∧ i2.deleted_at = i.deleted_at ∧ i2.owner = i.owner ∧
    i2.created_by = i.created_by ∧ i2.updated_by = i.updated_by ∧
    i2.deleted_by = i.deleted_by ∧ i2.as_user = i.as_user := by
  unfold smartmodels.prepare_smart_fields at h
  split at h
  · split at h
    · exact absurd h (by simp)
    · split at h
      · split at h
        · exact absurd h (by simp)
        · cases h; exact ⟨rfl, rfl, rfl, rfl, rfl, rfl, rfl⟩
      · split at h
        · exact absurd h (by simp)
        · cases h; exact ⟨rfl, rfl, rfl, rfl, rfl, rfl, rfl⟩
  · split at h <;> (cases h; exact ⟨rfl, rfl, rfl, rfl, rfl, rfl, rfl⟩)

/-! Claim theorems. -/

/-- Claim C2, counterexample: a row with deleted_at null but owned by the
sentinel user is hidden by the default manager's filtered query under the
builtin defaults, so visibility is not determined by the deleted_at column
alone. -/
theorem c2_counterexample :
    c2_row.deleted_at = none ∧
    smartmodels.SmartQuerySet.active smartmodels.defaultSettings [c2_row] = [] := by
  decide

/-- Claim C2, amended: the deleted state is exactly deleted_at non-null, and
the default manager's query hides the rows with deleted_at non-null when
HIDE_DELETED is enabled (the builtin default), but additionally and
unconditionally hides rows owned by the sentinel user or by an inactive user,
and, when HIDE_SERVICE_OWNERS is enabled, service-owned and deleted rows. -/
theorem c2_soft_delete_visibility :
    ∀ (s : smartmodels.Settings) (rows : List smartmodels.SmartInstance)
      (r : smartmodels.SmartInstance),
      (smartmodels.is_deleted r = true ↔ r.deleted_at ≠ none) ∧
      (r ∈ smartmodels.SmartManager.get_queryset s rows ↔
        r ∈ rows ∧ smartmodels.owner_is_sentinel s r = false ∧
        smartmodels.owner_is_inactive r = false ∧
        (s.hide_deleted = true → r.deleted_at.isSome = false) ∧
        (s.hide_service_owners = true →
          smartmodels.owner_is_service s r = false ∧ r.deleted_at.isSome = false)) := by
  intro s rows r
  refine ⟨?_, mem_active_iff s rows r⟩
  simp [smartmodels.is_deleted, Option.isSome_iff_ne_none]

/-- Witness for C2: a live row owned by a regular active user is visible
through the default manager under the builtin defaults. -/
theorem c2_witness :
    good_row ∈ smartmodels.SmartManager.get_queryset smartmodels.defaultSettings [good_row] :=
  ((c2_soft_delete_visibility smartmodels.defaultSettings [good_row] good_row).2).mpr
    (by decide)

/-- Claim C9: the default manager never yields a row owned by the sentinel
user or by an inactive user, whatever the HIDE_DELETED and HIDE_SERVICE_OWNERS
settings; in particular a whole queryset just soft-deleted through
SmartQuerySet.delete (whose rows were reassigned to the sentinel) is invisible
through active(). -/
theorem c9_sentinel_inactive_invisible :
    ∀ (s : smartmodels.Settings) (rows : List smartmodels.SmartInstance)
      (r : smartmodels.SmartInstance),
      (r ∈ smartmodels.SmartManager.get_queryset s rows →
        smartmodels.owner_is_sentinel s r = false ∧
        smartmodels.owner_is_inactive r = false) ∧
      (∀ (now : Nat) (dby : Option smartmodels.User)
        (out : List smartmodels.SmartInstance),
        smartmodels.SmartQuerySet.delete s now dby rows = Except.ok out →
        smartmodels.SmartQuerySet.active s out = []) := by
  intro s rows r
  constructor
  · intro h
    have h2 := (mem_active_iff s rows r).mp h
    exact ⟨h2.2.1, h2.2.2.1⟩
  · intro now dby out h
    unfold smartmodels.SmartQuerySet.delete at h
    split at h
    · exact absurd h (by simp)
    · cases h
      exact active_of_marked_eq_nil s now dby rows

/-- Claim C1: soft delete mutates fields instead of removing rows. Whenever
SmartModel.delete completes, the stored row is still present (updated, never
removed), with deleted_at set to the delete-time timestamp and owner
reassigned to the sentinel user, and the persistence happened through a
save-row event; and whenever SmartQuerySet.delete completes, it returns the
bulk update of every matched row (deleted_at = now, deleted_by as given,
owner = the sentinel user), removing none of them. -/
theorem c1_soft_delete_mutates :
    ∀ (s : smartmodels.Settings) (tdel tsave : Nat) (inst : smartmodels.SmartInstance)
      (db : Option smartmodels.SmartInstance)
      (tr : List (smartmodels.DeleteEvent × Option smartmodels.SmartInstance))
      (res : Except String (Option smartmodels.SmartInstance)),
      smartmodels.SmartModel.delete s tdel tsave inst db = (tr, res) →
      (∀ rowOpt, res = Except.ok rowOpt →
        ∃ w, rowOpt = some w ∧ w.deleted_at = some tdel ∧
          w.owner = some (smartmodels.get_sentinel_user s) ∧
          (smartmodels.DeleteEvent.save_row w, some w) ∈ tr) ∧
      (∀ (now : Nat) (dby : Option smartmodels.User)
        (rows out : List smartmodels.SmartInstance),
        smartmodels.SmartQuerySet.delete s now dby rows = Except.ok out →
        out.length = rows.length ∧
        out = rows.map (smartmodels.qs_mark_deleted s now dby) ∧
        ∀ r ∈ out, r.deleted_at = some now ∧ r.deleted_by = dby ∧
          r.owner = some (smartmodels.get_sentinel_user s)) := by
  intro s tdel tsave inst db tr res hdel
  constructor
  · intro rowOpt hres
    unfold smartmodels.SmartModel.delete at hdel
    split at hdel
    · injection hdel with h1 h2
      subst h1; subst h2
      exact absurd hres (by simp)
    · split at hdel
      · injection hdel with h1 h2
        subst h1; subst h2
        exact absurd hres (by simp)
      · rename_i written heq
        injection hdel with h1 h2
        subst h1; subst h2
        injection hres with h3
        subst h3
        have hpres := prepare_smart_fields_preserves s tsave _ written heq
        refine ⟨written, rfl, ?_, ?_, by simp⟩
        · rw [hpres.2.1]; rfl
        · rw [hpres.2.2.1]; rfl
  · intro now dby rows out h
    unfold smartmodels.SmartQuerySet.delete at h
    split at h
    · exact absurd h (by simp)
    · cases h
      refine ⟨by simp, rfl, ?_⟩
      intro r hr
      rcases List.mem_map.mp hr with ⟨r', _, rfl⟩
      exact ⟨rfl, rfl, rfl⟩

/-- Witness for C1: deleting a fully populated row (deleted_by set) under the
builtin defaults yields the row marked deleted and owned by the sentinel with
the save event in the trace, and bulk-deleting a one-row queryset keeps its
length. -/
theorem c1_witness :
    (∃ w, (some del_row_marked : Option smartmodels.SmartInstance) = some w ∧
      w.deleted_at = some 3 ∧
      w.owner = some (smartmodels.get_sentinel_user smartmodels.defaultSettings) ∧
      (smartmodels.DeleteEvent.save_row w, some w) ∈
        (smartmodels.SmartModel.delete smartmodels.defaultSettings 3 4 del_row (some del_row)).1) ∧
    ([good_row].map (smartmodels.qs_mark_deleted smartmodels.defaultSettings 3 (some bob))).length =
      [good_row].length := by
  have hmain := c1_soft_delete_mutates smartmodels.defaultSettings 3 4 del_row (some del_row)
    (smartmodels.SmartModel.delete smartmodels.defaultSettings 3 4 del_row (some del_row)).1
    (smartmodels.SmartModel.delete smartmodels.defaultSettings 3 4 del_row (some del_row)).2
    rfl
  refine ⟨hmain.1 (some del_row_marked) (by rfl), ?_⟩
  exact (hmain.2 3 (some bob) [good_row]
    ([good_row].map (smartmodels.qs_mark_deleted smartmodels.defaultSettings 3 (some bob))) rfl).1

/-- Claim C10: in SmartModel.delete, whenever the call completes, the event
trace is exactly the post_delete signal followed by the row write: the signal
observes the in-memory instance already marked (deleted_at set to the
delete-time timestamp, owner reassigned to the sentinel user, every other
field still at its pre-delete value) with deleted_by passed alongside, while
the stored row still holds its pre-delete value `db`, and the stored row
changes only at the subsequent save event. -/
theorem c10_signal_before_save :
    ∀ (s : smartmodels.Settings) (tdel tsave : Nat) (inst : smartmodels.SmartInstance)
      (db : Option smartmodels.SmartInstance)
      (tr : List (smartmodels.DeleteEvent × Option smartmodels.SmartInstance))
      (res : Except String (Option smartmodels.SmartInstance))
      (rowOpt : Option smartmodels.SmartInstance),
      smartmodels.SmartModel.delete s tdel tsave inst db = (tr, res) →
      res = Except.ok rowOpt →
      ∃ w, rowOpt = some w ∧
        tr = [(smartmodels.DeleteEvent.post_delete_signal
                 (smartmodels.mark_deleted s tdel inst) inst.deleted_by, db),
              (smartmodels.DeleteEvent.save_row w, some w)] ∧
        (smartmodels.mark_deleted s tdel inst).deleted_at = some tdel ∧
        (smartmodels.mark_deleted s tdel inst).owner =
          some (smartmodels.get_sentinel_user s) ∧
        (smartmodels.mark_deleted s tdel inst).pk = inst.pk ∧
        (smartmodels.mark_deleted s tdel inst).created_at = inst.created_at ∧
        (smartmodels.mark_deleted s tdel inst).updated_at = inst.updated_at ∧
        (smartmodels.mark_deleted s tdel inst).created_by = inst.created_by ∧
        (smartmodels.mark_deleted s tdel inst).updated_by = inst.updated_by ∧
        (smartmodels.mark_deleted s tdel inst).deleted_by = inst.deleted_by := by
  intro s tdel tsave inst db tr res rowOpt hdel hres
  unfold smartmodels.SmartModel.delete at hdel
  split at hdel
  · injection hdel with h1 h2
    subst h1; subst h2
    exact absurd hres (by simp)
  · split at hdel
    · injection hdel with h1 h2
      subst h1; subst h2
      exact absurd hres (by simp)
    · rename_i written heq
      injection hdel with h1 h2
      subst h1; subst h2
      injection hres with h3
      subst h3
      exact ⟨written, rfl, rfl, rfl, rfl, rfl, rfl, rfl, rfl, rfl, rfl⟩

/-- Witness for C10: deleting del_row under the builtin defaults produces
exactly the signal event (observing the marked instance, stored row untouched)
followed by the save event. -/
theorem c10_witness :
    ∃ w, (some del_row_marked : Option smartmodels.SmartInstance) = some w ∧
      (smartmodels.SmartModel.delete smartmodels.defaultSettings 3 4 del_row (some del_row)).1 =
        [(smartmodels.DeleteEvent.post_delete_signal
            (smartmodels.mark_deleted smartmodels.defaultSettings 3 del_row)
            del_row.deleted_by, some del_row),
         (smartmodels.DeleteEvent.save_row w, some w)] ∧
      (smartmodels.mark_deleted smartmodels.defaultSettings 3 del_row).deleted_at = some 3 ∧
      (smartmodels.mark_deleted smartmodels.defaultSettings 3 del_row).owner =
        some (smartmodels.get_sentinel_user smartmodels.defaultSettings) ∧
      (smartmodels.mark_deleted smartmodels.defaultSettings 3 del_row).pk = del_row.pk ∧
      (smartmodels.mark_deleted smartmodels.defaultSettings 3 del_row).created_at = del_row.created_at ∧
      (smartmodels.mark_deleted smartmodels.defaultSettings 3 del_row).updated_at = del_row.updated_at ∧
      (smartmodels.mark_deleted smartmodels.defaultSettings 3 del_row).created_by = del_row.created_by ∧
      (smartmodels.mark_deleted smartmodels.defaultSettings 3 del_row).updated_by = del_row.updated_by ∧
      (smartmodels.mark_deleted smartmodels.defaultSettings 3 del_row).deleted_by = del_row.deleted_by :=
  c10_signal_before_save smartmodels.defaultSettings 3 4 del_row (some del_row)
    (smartmodels.SmartModel.delete smartmodels.defaultSettings 3 4 del_row (some del_row)).1
    (smartmodels.SmartModel.delete smartmodels.defaultSettings 3 4 del_row (some del_row)).2
    (some del_row_marked) rfl (by rfl)

/-- Claim C3: under the builtin-defaults mode (DEFAULT_REQUIRED false), the
pre_save handler always succeeds and saves the instance with its smart fields
set: it assigns updated_at := now, assigns created_at := now exactly when the
instance has no (truthy) primary key, and passes every other smart field
through unchanged to the write. -/
theorem c3_presave_timestamp_defaults :
    ∀ (s : smartmodels.Settings) (now : Nat) (inst : smartmodels.SmartInstance),
      s.default_required = false →
      ∃ inst2, smartmodels.prepare_smart_fields s now inst = Except.ok inst2 ∧
        inst2.updated_at = some now ∧
        (smartmodels.pkSet inst.pk = false → inst2.created_at = some now) ∧
        (smartmodels.pkSet inst.pk = true → inst2.created_at = inst.created_at) ∧
        inst2.pk = inst.pk ∧ inst2.deleted_at = inst.deleted_at ∧
        inst2.owner = inst.owner ∧ inst2.created_by = inst.created_by ∧
        inst2.updated_by = inst.updated_by ∧ inst2.deleted_by = inst.deleted_by := by
  intro s now inst hreq
  unfold smartmodels.prepare_smart_fields
  rw [hreq]
  simp only [Bool.false_and, if_false]
  cases hpk : smartmodels.pkSet inst.pk <;> simp [hpk]

/-- Witness for C3: with DEFAULT_REQUIRED disabled, saving a pk-less instance
stamps both timestamps with the current time. -/
theorem c3_witness :
    ∃ inst2, smartmodels.prepare_smart_fields reqFalseSettings 7
        { good_row with pk := none } = Except.ok inst2 ∧
      inst2.updated_at = some 7 ∧
      (smartmodels.pkSet (none : Option Nat) = false → inst2.created_at = some 7) ∧
      (smartmodels.pkSet (none : Option Nat) = true →
        inst2.created_at = { good_row with pk := none }.created_at) ∧
      inst2.pk = none ∧ inst2.deleted_at = { good_row with pk := none }.deleted_at ∧
      inst2.owner = { good_row with pk := none }.owner ∧
      inst2.created_by = { good_row with pk := none }.created_by ∧
      inst2.updated_by = { good_row with pk := none }.updated_by ∧
      inst2.deleted_by = { good_row with pk := none }.deleted_by :=
  c3_presave_timestamp_defaults reqFalseSettings 7 { good_row with pk := none } rfl

/-- Claim C4, counterexample: under the builtin defaults (DEFAULT_REQUIRED
true), an instance whose owner is unset (hence an owner that is not the
sentinel, not a superuser and not a service) saves without any assertion
failure, because the instance itself is a superuser user-model instance: the
exclusion is computed on the instance being saved, not on its owner, so the
claim's owner-based reading is false. -/
theorem c4_counterexample :
    smartmodels.defaultSettings.default_required = true ∧
    c4_inst.owner = none ∧
    smartmodels.is_superuser c4_inst = true ∧
    exceptOk (smartmodels.prepare_smart_fields smartmodels.defaultSettings 7 c4_inst) = true := by
  decide

/-- Claim C4, amended: assert-a-field-is-set-before-save is the only failure
handling, with the sentinel/superuser/service exclusion computed on the
instance being saved (not on its owner). When DEFAULT_REQUIRED is true and the
instance is not excluded, prepare_smart_fields succeeds iff owner is set, and
(for a new instance) created_by and updated_by are set, or (for an existing
instance) updated_by or deleted_by is set; SmartModel.delete stops at its
deleted_by assertion (no event fired); SmartQuerySet.delete fails on a missing
deleted_by; and with DEFAULT_REQUIRED false none of these checks occurs and
all three operations proceed. -/
theorem c4_assert_only_failure_handling :
    ∀ (s : smartmodels.Settings) (now tdel tsave : Nat) (inst : smartmodels.SmartInstance)
      (db : Option smartmodels.SmartInstance) (dby : Option smartmodels.User)
      (rows : List smartmodels.SmartInstance),
      (s.default_required = true → smartmodels.smart_excluded s inst = false →
        (exceptOk (smartmodels.prepare_smart_fields s now inst) = true ↔
          (inst.owner.isSome = true ∧
           (smartmodels.pkSet inst.pk = false →
             inst.created_by.isSome = true ∧ inst.updated_by.isSome = true) ∧
           (smartmodels.pkSet inst.pk = true →
             inst.updated_by.isSome = true ∨ inst.deleted_by.isSome = true)))) ∧
      (s.default_required = true → inst.deleted_by = none →
        smartmodels.SmartModel.delete s tdel tsave inst db =
          ([], Except.error "SmartModel instance missing deleted_by attribute")) ∧
      (s.default_required = true → dby = none →
        smartmodels.SmartQuerySet.delete s now dby rows =
          Except.error "SmartModel manager delete missing deleted_by attribute") ∧
      (s.default_required = false →
        exceptOk (smartmodels.prepare_smart_fields s now inst) = true ∧
        exceptOk (smartmodels.SmartModel.delete s tdel tsave inst db).2 = true ∧
        exceptOk (smartmodels.SmartQuerySet.delete s now dby rows) = true) := by
  intro s now tdel tsave inst db dby rows
  refine ⟨?_, ?_, ?_, ?_⟩
  · intro hreq hexcl
    unfold smartmodels.prepare_smart_fields
    rw [hreq, hexcl]
    simp only [Bool.not_false, Bool.and_true, if_true]
    cases howner : inst.owner <;>
      cases hpk : smartmodels.pkSet inst.pk <;>
        cases hcb : inst.created_by <;>
          cases hub : inst.updated_by <;>
            cases hdb : inst.deleted_by <;>
              simp [exceptOk, hpk]
  · intro hreq hdb
    unfold smartmodels.SmartModel.delete
    rw [hreq, hdb]
    simp
  · intro hreq hdby
    unfold smartmodels.SmartQuerySet.delete
    rw [hreq, hdby]
    simp
  · intro hreq
    refine ⟨?_, ?_, ?_⟩
    · unfold smartmodels.prepare_smart_fields
      rw [hreq]
      simp [exceptOk]
    · unfold smartmodels.SmartModel.delete
      rw [hreq]
      simp only [Bool.false_and, if_false]
      generalize hprep : smartmodels.prepare_smart_fields s tsave
          (smartmodels.mark_deleted s tdel inst) = pr
      cases pr with
      | error e =>
          exact absurd hprep (by
            unfold smartmodels.prepare_smart_fields
            rw [hreq]
            simp)
      | ok written => simp [exceptOk]
    · unfold smartmodels.SmartQuerySet.delete
      rw [hreq]
      simp [exceptOk]

/-- Witness for C4: the four conjuncts applied at concrete inputs: a fully
populated new instance passes the required-mode checks; a deleted_by-less
instance delete and queryset delete stop at their assertion; with
DEFAULT_REQUIRED false a fieldless instance saves fine. -/
theorem c4_witness :
    exceptOk (smartmodels.prepare_smart_fields smartmodels.defaultSettings 7 good_row) = true ∧
    smartmodels.SmartModel.delete smartmodels.defaultSettings 3 4 good_row (some good_row) =
      ([], Except.error "SmartModel instance missing deleted_by attribute") ∧
    smartmodels.SmartQuerySet.delete smartmodels.defaultSettings 3 none [good_row] =
      Except.error "SmartModel manager delete missing deleted_by attribute" ∧
    exceptOk (smartmodels.prepare_smart_fields reqFalseSettings 7
      { good_row with owner := none, created_by := none, updated_by := none }) = true := by
  have h1 := c4_assert_only_failure_handling smartmodels.defaultSettings 7 3 4 good_row
    (some good_row) none [good_row]
  have h2 := c4_assert_only_failure_handling reqFalseSettings 7 3 4
    { good_row with owner := none, created_by := none, updated_by := none }
    none none ([] : List smartmodels.SmartInstance)
  exact ⟨(h1.1 rfl rfl).mpr (by decide), h1.2.1 rfl rfl, h1.2.2.1 rfl rfl,
    (h2.2.2.2 rfl).1⟩

/-- Claim C8: the two parallel pre_save handlers diverge on created_at. At the
same instance state (pk = 1, created_at = 100) under DEFAULT_REQUIRED false,
the smartmodels handler leaves created_at untouched while the legacy
smart_models handler overwrites it with the current time, and at the pk-less
state the smartmodels handler stamps created_at while the legacy handler does
not: the legacy condition `if instance.pk` is the inverse of the smartmodels
condition `if not instance.pk`, contradicting the auto_now_add declaration of
the created_at column. Both agree on updated_at := now. -/
theorem c8_handlers_divergence :
    (smartmodels.prepare_smart_fields reqFalseSettings 5 good_row =
      Except.ok { good_row with updated_at := some 5 }) ∧
    (smart_models.prepare_smart_fields false 5 good_row_legacy =
      Except.ok { good_row_legacy with updated_at := some 5, created_at := some 5 }) ∧
    (smartmodels.prepare_smart_fields reqFalseSettings 5 { good_row with pk := none } =
      Except.ok { good_row with pk := none, updated_at := some 5, created_at := some 5 }) ∧
    (smart_models.prepare_smart_fields false 5 { good_row_legacy with pk := none } =
      Except.ok { good_row_legacy with pk := none, updated_at := some 5 }) ∧
    good_row.pk = good_row_legacy.pk ∧ good_row.created_at = good_row_legacy.created_at :=
  ⟨rfl, rfl, rfl, rfl, rfl, rfl⟩

/-- Helper for C7: whenever one of the three post_ actions reaches the
m2m_changed handler, every default namespace is a member of the resulting
namespaces set. -/
theorem handler_restores_default_namespaces
    (s : smartmodels.Settings) (st : smartmodels.ResourceState)
    (action : smartmodels.M2MAction)
    (h : action = smartmodels.M2MAction.post_add ∨
         action = smartmodels.M2MAction.post_remove ∨
         action = smartmodels.M2MAction.post_clear) :
    ∀ d ∈ smartmodels.get_default_namespaces s,
      d ∈ (smartmodels.prepare_shared_smart_m2m_fields s action st).namespaces := by
  intro d hd
  have hd2 : d = { slug := s.sentinel_uid } := by
    simpa [smartmodels.get_default_namespaces] using hd
  subst hd2
  have hcond : (action == smartmodels.M2MAction.post_add ||
      action == smartmodels.M2MAction.post_remove ||
      action == smartmodels.M2MAction.post_clear) = true := by
    rcases h with h | h | h <;> subst h <;> rfl
  unfold smartmodels.prepare_shared_smart_m2m_fields
  rw [hcond]
  simp only [if_true, smartmodels.get_default_namespaces, List.foldl_cons, List.foldl_nil]
  unfold smartmodels.add_if_absent
  cases hc : st.namespaces.contains { slug := s.sentinel_uid } with
  | true =>
      simp only [if_true]
      exact List.elem_iff.mp hc
  | false =>
      simp [hc]

/-- Claim C7: after every completed add, remove or clear on a Resource's
namespaces relation (the ORM effect followed by the post_add / post_remove /
post_clear m2m_changed dispatch), the default sentinel namespace is a member
of the instance's namespaces set; and the handler restores it on any of the
three post_ actions whenever it is absent. -/
theorem c7_default_namespace_invariant :
    ∀ (s : smartmodels.Settings) (op : smartmodels.M2MOp)
      (st : smartmodels.ResourceState) (action : smartmodels.M2MAction),
      (∀ d ∈ smartmodels.get_default_namespaces s,
        d ∈ (smartmodels.completed_m2m s op st).namespaces) ∧
      ((action = smartmodels.M2MAction.post_add ∨
        action = smartmodels.M2MAction.post_remove ∨
        action = smartmodels.M2MAction.post_clear) →
        ∀ d ∈ smartmodels.get_default_namespaces s,
          d ∈ (smartmodels.prepare_shared_smart_m2m_fields s action st).namespaces) := by
  intro s op st action
  constructor
  · intro d hd
    unfold smartmodels.completed_m2m
    refine handler_restores_default_namespaces s _ _ ?_ d hd
    cases op with
    | add ns => exact Or.inl rfl
    | remove ns => exact Or.inr (Or.inl rfl)
    | clear => exact Or.inr (Or.inr rfl)
  · intro h
    exact handler_restores_default_namespaces s st action h

/-- Witness for C7: clearing the namespaces of a resource still leaves the
default sentinel namespace in the set. -/
theorem c7_witness :
    ({ slug := "sentinel" } : smartmodels.Nspace) ∈
      (smartmodels.completed_m2m smartmodels.defaultSettings
        smartmodels.M2MOp.clear c7_state).namespaces :=
  (c7_default_namespace_invariant smartmodels.defaultSettings smartmodels.M2MOp.clear
    c7_state smartmodels.M2MAction.post_clear).1 { slug := "sentinel" } (by decide)

/-- Claim C5, counterexample: a nested serializer field bound with many=True
(a ListSerializer) that is not listed in exclude_nested keeps its
UniqueValidator untouched, because is_valid() skips ListSerializer children,
so the claim's "every nested field not listed in Meta.exclude_nested" is
false. -/
theorem c5_counterexample :
    drf.in_custom (drf.ExcludeNested.names []) "tags" = true ∧
    c5_list_child.isListSerializer = true ∧
    drf.for_disabling (drf.Validator.uniqueV 0) = true ∧
    (drf.Validator.uniqueV 0) ∈ (c5_list_child.fields.map (fun f => f.validators)).flatten ∧
    drf.is_valid_effect (drf.ExcludeNested.names []) [("tags", c5_list_child)] =
      [("tags", c5_list_child)] := by
  decide

/-- Claim C5, amended: uniqueness validation is suppressed selectively for the
non-list nested fields. For every nested serializer field not listed in
Meta.exclude_nested and not bound through a ListSerializer (many=True),
is_valid() rewrites each of the child's fields to keep exactly the validators
that are not UniqueValidator / UniqueTogetherValidator instances, preserving
every other validator and their relative order; nested fields that are
excluded (all of them when exclude_nested is __all__) or that are
ListSerializers keep their validators unchanged. -/
theorem c5_selective_uniqueness_suppression :
    ∀ (excl : drf.ExcludeNested) (nested : List (String × drf.ChildSerializer))
      (name : String) (c : drf.ChildSerializer),
      (name, c) ∈ nested →
      ((drf.in_custom excl name = true → c.isListSerializer = false →
        (name, drf.disable_validators c) ∈ drf.is_valid_effect excl nested ∧
        ∀ f ∈ c.fields, ∃ f2 ∈ (drf.disable_validators c).fields,
          f2.name = f.name ∧
          f2.validators = drf.filter_nested_validators f.validators ∧
          (∀ v ∈ f2.validators, drf.for_disabling v = false) ∧
          List.Sublist f2.validators f.validators ∧
          (∀ v ∈ f.validators, drf.for_disabling v = false → v ∈ f2.validators)) ∧
       ((drf.in_custom excl name = false ∨ c.isListSerializer = true) →
        (name, c) ∈ drf.is_valid_effect excl nested)) := by
  intro excl nested name c hmem
  constructor
  · intro hcust hlist
    constructor
    · refine List.mem_map.mpr ⟨(name, c), hmem, ?_⟩
      simp [hcust, hlist]
    · intro f hf
      refine ⟨{ f with validators := drf.filter_nested_validators f.validators },
        List.mem_map.mpr ⟨f, hf, rfl⟩, rfl, rfl, ?_, ?_, ?_⟩
      · intro v hv
        have h2 := (List.mem_filter.mp hv).2
        simpa using h2
      · exact List.filter_sublist f.validators
      · intro v hv hvd
        exact List.mem_filter.mpr ⟨hv, by simp [hvd]⟩
  · intro hor
    refine List.mem_map.mpr ⟨(name, c), hmem, ?_⟩
    rcases hor with h | h <;> simp [h]

/-- Witness for C5: a non-list, non-excluded nested field gets its validators
rewritten by is_valid, and the same field keeps them when excluded. -/
theorem c5_witness :
    ("owner", drf.disable_validators c5_flat_child) ∈
      drf.is_valid_effect (drf.ExcludeNested.names []) [("owner", c5_flat_child)] ∧
    ("owner", c5_flat_child) ∈
      drf.is_valid_effect (drf.ExcludeNested.names ["owner"]) [("owner", c5_flat_child)] :=
  ⟨((c5_selective_uniqueness_suppression (drf.ExcludeNested.names [])
      [("owner", c5_flat_child)] "owner" c5_flat_child (by decide)).1 rfl rfl).1,
   (c5_selective_uniqueness_suppression (drf.ExcludeNested.names ["owner"])
      [("owner", c5_flat_child)] "owner" c5_flat_child (by decide)).2 (Or.inl rfl)⟩

/-- Claim C6: flat and nested input representations are reconciled. For every
declared sub-serializer field, get_nested binds the value found in the
payload under the field's name whenever such a value is present and non-empty
(truthy), and binds the entire flat payload otherwise (key absent, or present
but empty/falsy). -/
theorem c6_flat_nested_reconciliation :
    ∀ (subfields : List String) (data : drf.JValue) (name : String),
      name ∈ subfields →
      (∀ v, drf.dataGet data name = some v → drf.truthy v = true →
        (name, v) ∈ drf.get_nested subfields data) ∧
      ((∀ v, drf.dataGet data name = some v → drf.truthy v = false) →
        (name, data) ∈ drf.get_nested subfields data) := by
  intro subfields data name hmem
  constructor
  · intro v hv ht
    refine List.mem_map.mpr ⟨name, hmem, ?_⟩
    simp [drf.data_for_field, hv, ht]
  · intro hfalsy
    refine List.mem_map.mpr ⟨name, hmem, ?_⟩
    cases hv : drf.dataGet data name with
    | none => simp [drf.data_for_field, hv]
    | some v => simp [drf.data_for_field, hv, hfalsy v hv]

/-- Witness for C6: in a payload with a non-empty nested `owner` object, the
owner sub-serializer is bound to that object, while a sub-serializer field
absent from the payload is bound to the whole flat payload. -/
theorem c6_witness :
    ("owner", c6_owner_val) ∈ drf.get_nested ["owner", "account"] c6_data ∧
    ("account", c6_data) ∈ drf.get_nested ["owner", "account"] c6_data := by
  constructor
  · exact (c6_flat_nested_reconciliation ["owner", "account"] c6_data "owner"
      (by simp)).1 c6_owner_val rfl rfl
  · refine (c6_flat_nested_reconciliation ["owner", "account"] c6_data "account"
      (by simp)).2 ?_
    intro v hv
    have h0 : drf.dataGet c6_data "account" = none := rfl
    rw [h0] at hv
    exact Option.noConfusion hv

/-- Witness for C9: a bob-owned live row is not sentinel-owned nor
inactive-owned once it appears in the default manager's queryset, and a
one-row queryset soft-deleted in bulk becomes invisible through active(). -/
theorem c9_witness :
    (smartmodels.owner_is_sentinel smartmodels.defaultSettings good_row = false ∧
     smartmodels.owner_is_inactive good_row = false) ∧
    smartmodels.SmartQuerySet.active smartmodels.defaultSettings
      ([good_row].map (smartmodels.qs_mark_deleted smartmodels.defaultSettings 3 (some bob))) = [] :=
  ⟨(c9_sentinel_inactive_invisible smartmodels.defaultSettings [good_row] good_row).1 (by decide),
   (c9_sentinel_inactive_invisible smartmodels.defaultSettings [good_row] good_row).2 3 (some bob)
     ([good_row].map (smartmodels.qs_mark_deleted smartmodels.defaultSettings 3 (some bob))) rfl⟩
